import Mathlib

/-
  Shallow embedding of the libsolace core primitives and proofs of the
  specification claims about them.

  Sources embedded:
  * src/include/solace/writeBuffer.hpp   (WriteBuffer cursor operations)
  * src/include/solace/byteBuffer.hpp    (ByteBuffer cursor operations)
  * src/include/solace/memoryView.hpp    (endian put/get utilities, dataAs,
                                          construct, move/swap of views)
  * src/include/solace/optional.hpp      (Optional map/flatMap)
  Parts of the repository that are only declared under src/ (the
  ImmutableMemoryView implementation file, assert.hpp, the Selector and the
  Future/Promise implementation) are modelled from the spec where a claim
  needs them; each such definition carries a doc comment saying so.

  Machine integers are modelled as Nat with explicit truncation:
  a C++ byte (uint8) is a Nat taken modulo 256 at each store, a uint32 is a
  Nat below 2^32, a uint64 a Nat below 2^64, and an int32 is represented by
  its two's-complement bit pattern (a Nat below 2^32).  Raw byte memory
  (the C++ `byte*`) is a total function from addresses to byte values.
-/

namespace Solace

/-- Error conditions of the library's error taxonomy (spec section 7) that
the embedded operations can signal. -/
inductive Err where
  | invalidArgument
  | outOfRange
  | invalidState
  deriving DecidableEq, Repr

/-! ## WriteBuffer (src/include/solace/writeBuffer.hpp)

The cursor state of a `WriteBuffer`: `_position`, `_limit` and the storage.
Only the storage size (`capacity() { return _storage.size(); }`) matters for
the cursor operations, so the storage is embedded by its size. -/

structure WriteBuffer where
  position : Nat
  limit : Nat
  storageSize : Nat
  deriving DecidableEq, Repr

namespace WriteBuffer

/-- `size_type capacity() const noexcept { return _storage.size(); }` -/
def capacity (b : WriteBuffer) : Nat := b.storageSize

/-- `clear()`: `_position = 0; _limit = capacity();` -/
def clear (b : WriteBuffer) : WriteBuffer :=
  { b with position := 0, limit := capacity b }

/-- `flip()`: `_limit = _position; _position = 0;` -/
def flip (b : WriteBuffer) : WriteBuffer :=
  { b with limit := b.position, position := 0 }

/-- `rewind()`: `_position = 0;` leaving the limit unchanged. -/
def rewind (b : WriteBuffer) : WriteBuffer :=
  { b with position := 0 }

/-- The buffer invariant `0 <= position <= limit <= capacity` (the lower
bound is implicit in Nat). -/
def Inv (b : WriteBuffer) : Prop :=
  b.position ≤ b.limit ∧ b.limit ≤ capacity b

instance (b : WriteBuffer) : Decidable (Inv b) := by
  unfold Inv; infer_instance

end WriteBuffer

/-! ## ByteBuffer (src/include/solace/byteBuffer.hpp)

`ByteBuffer` derives from `ReadBuffer` and shares the same `_position`,
`_limit` and storage fields.  Its `clear` and `flip` bodies are inline in
src; `rewind` delegates to `ReadBuffer::rewind`, whose body is not under
src/ and is modelled from the spec: "rewind (position=0, limit unchanged)". -/

structure ByteBuffer where
  position : Nat
  limit : Nat
  storageSize : Nat
  deriving DecidableEq, Repr

namespace ByteBuffer

/-- Capacity of the underlying storage. -/
def capacity (b : ByteBuffer) : Nat := b.storageSize

/-- `clear()`: `_position = 0; _limit = capacity();` -/
def clear (b : ByteBuffer) : ByteBuffer :=
  { b with position := 0, limit := capacity b }

/-- `flip()`: `_limit = _position; _position = 0;` -/
def flip (b : ByteBuffer) : ByteBuffer :=
  { b with limit := b.position, position := 0 }

/-- Modelled from the spec: `ReadBuffer::rewind` (implementation not under
src/) sets the position to zero and leaves the limit unchanged. -/
def rewind (b : ByteBuffer) : ByteBuffer :=
  { b with position := 0 }

/-- The buffer invariant `0 <= position <= limit <= capacity`. -/
def Inv (b : ByteBuffer) : Prop :=
  b.position ≤ b.limit ∧ b.limit ≤ capacity b

instance (b : ByteBuffer) : Decidable (Inv b) := by
  unfold Inv; infer_instance

end ByteBuffer

/-! ## Optional (src/include/solace/optional.hpp)

`Optional<T>` is a tagged union of an empty alternative and a payload,
with `_engaged` as the tag; embedded as an inductive type. -/

inductive Optional (T : Type) where
  | noneV : Optional T
  | someV (payload : T) : Optional T
  deriving DecidableEq, Repr

namespace Optional

/-- `isSome() { return _engaged; }` -/
def isSome {T : Type} : Optional T → Bool
  | noneV => false
  | someV _ => true

/-- `isNone() { return !_engaged; }` -/
def isNone {T : Type} (o : Optional T) : Bool := !o.isSome

/-- `map(f)`: `isSome() ? Optional<U>(f(_payload)) : none`. -/
def map {T U : Type} (o : Optional T) (f : T → U) : Optional U :=
  match o with
  | noneV => noneV
  | someV payload => someV (f payload)

/-- `flatMap(f)`: `isSome() ? f(_payload) : none`. -/
def flatMap {T U : Type} (o : Optional T) (f : T → Optional U) : Optional U :=
  match o with
  | noneV => noneV
  | someV payload => f payload

end Optional

/-! ## Future / Promise completion cell

The Future/Promise implementation (solace/io/async/future.hpp) is not under
src/; only its caller `unixSocket.hpp` is.  Modelled from the spec:
"shared completion cell with states {Pending, Resolved(value), Failed(error)}.
Exactly one producer may transition Pending to Resolved or Pending to Failed
exactly once; a second transition attempt fails with an invalid-state
error." -/

inductive PromiseState (T E : Type) where
  | pending : PromiseState T E
  | resolved (value : T) : PromiseState T E
  | failed (error : E) : PromiseState T E
  deriving DecidableEq, Repr

namespace PromiseState

/-- Modelled from the spec: `Promise<T>::resolve(value)` performs the single
allowed transition Pending to Resolved; on an already settled cell it fails
with an invalid-state condition and leaves the cell unchanged. -/
def resolve {T E : Type} (s : PromiseState T E) (value : T) :
    Except Err Unit × PromiseState T E :=
  match s with
  | pending => (Except.ok (), resolved value)
  | s => (Except.error Err.invalidState, s)

/-- Modelled from the spec: `Promise<T>::fail(error)` performs the single
allowed transition Pending to Failed; on an already settled cell it fails
with an invalid-state condition and leaves the cell unchanged. -/
def fail {T E : Type} (s : PromiseState T E) (error : E) :
    Except Err Unit × PromiseState T E :=
  match s with
  | pending => (Except.ok (), failed error)
  | s => (Except.error Err.invalidState, s)

end PromiseState

/-! ## Raw byte memory and the endian utilities
    (src/include/solace/memoryView.hpp, lines 254-335)

A raw C++ `byte*` is embedded as a total function from addresses to byte
values; `b[i] = x` becomes `Function.update b i x`, and the
`static_cast<byte>` in each store truncates the value modulo 256.  The
`uint32`/`uint64` arithmetic of the get functions never wraps because every
operand is a byte shifted below the word width, so Nat arithmetic is exact. -/

/-- Byte memory: address to byte value. -/
def Mem : Type := Nat → Nat

/-- `getUint32_BE(n, b, i)`:
`n = uint32(b[i]) << 24 | uint32(b[i+1]) << 16 | uint32(b[i+2]) << 8 | uint32(b[i+3])`. -/
def getUint32_BE (b : Mem) (i : Nat) : Nat :=
  b i <<< 24 ||| b (i + 1) <<< 16 ||| b (i + 2) <<< 8 ||| b (i + 3)

/-- `putUint32_BE(n, b, i)`: four successive stores
`b[i] = byte(n >> 24); b[i+1] = byte(n >> 16); b[i+2] = byte(n >> 8); b[i+3] = byte(n)`. -/
def putUint32_BE (n : Nat) (b : Mem) (i : Nat) : Mem :=
  Function.update (Function.update (Function.update (Function.update b
    i (n >>> 24 % 256))
    (i + 1) (n >>> 16 % 256))
    (i + 2) (n >>> 8 % 256))
    (i + 3) (n % 256)

/-- `getInt32_LE(n, b, i)` at the level of two's-complement bit patterns:
`n = int32(b[i]) | int32(b[i+1]) << 8 | int32(b[i+2]) << 16 | int32(b[i+3]) << 24`. -/
def getInt32_LE (b : Mem) (i : Nat) : Nat :=
  b i ||| b (i + 1) <<< 8 ||| b (i + 2) <<< 16 ||| b (i + 3) <<< 24

/-- `putInt32_LE(n, b, i)` at the level of two's-complement bit patterns:
`b[i] = byte(n & 0xFF); ... b[i+3] = byte((n >> 24) & 0xFF)`.  For these
shift distances `(n >> k) & 0xFF` extracts pattern bits `k..k+7`, so the
arithmetic shift of the C++ `int32` coincides with the logical shift on the
pattern. -/
def putInt32_LE (n : Nat) (b : Mem) (i : Nat) : Mem :=
  Function.update (Function.update (Function.update (Function.update b
    i (n &&& 0xFF))
    (i + 1) (n >>> 8 &&& 0xFF))
    (i + 2) (n >>> 16 &&& 0xFF))
    (i + 3) (n >>> 24 &&& 0xFF)

/-- `getUint32_LE(n, b, i)`:
`n = uint32(b[i]) | uint32(b[i+1]) << 8 | uint32(b[i+2]) << 16 | uint32(b[i+3]) << 24`. -/
def getUint32_LE (b : Mem) (i : Nat) : Nat :=
  b i ||| b (i + 1) <<< 8 ||| b (i + 2) <<< 16 ||| b (i + 3) <<< 24

/-- `putUint32_LE(n, b, i)`:
`b[i] = byte(n & 0xFF); b[i+1] = byte((n >> 8) & 0xFF);
 b[i+2] = byte((n >> 16) & 0xFF); b[i+3] = byte((n >> 24) & 0xFF)`. -/
def putUint32_LE (n : Nat) (b : Mem) (i : Nat) : Mem :=
  Function.update (Function.update (Function.update (Function.update b
    i (n &&& 0xFF))
    (i + 1) (n >>> 8 &&& 0xFF))
    (i + 2) (n >>> 16 &&& 0xFF))
    (i + 3) (n >>> 24 &&& 0xFF)

/-- `getUint64_LE(n, b, i)`: eight bytes, least significant first. -/
def getUint64_LE (b : Mem) (i : Nat) : Nat :=
  b i ||| b (i + 1) <<< 8 ||| b (i + 2) <<< 16 ||| b (i + 3) <<< 24 |||
  b (i + 4) <<< 32 ||| b (i + 5) <<< 40 ||| b (i + 6) <<< 48 ||| b (i + 7) <<< 56

/-- `putUint64_LE(n, b, i)`: eight stores `b[i+k] = byte((n >> 8k) & 0xFF)`. -/
def putUint64_LE (n : Nat) (b : Mem) (i : Nat) : Mem :=
  Function.update (Function.update (Function.update (Function.update
  (Function.update (Function.update (Function.update (Function.update b
    i (n &&& 0xFF))
    (i + 1) (n >>> 8 &&& 0xFF))
    (i + 2) (n >>> 16 &&& 0xFF))
    (i + 3) (n >>> 24 &&& 0xFF))
    (i + 4) (n >>> 32 &&& 0xFF))
    (i + 5) (n >>> 40 &&& 0xFF))
    (i + 6) (n >>> 48 &&& 0xFF))
    (i + 7) (n >>> 56 &&& 0xFF)

/-! ## Memory view state (src/include/solace/memoryView.hpp)

A view is a non-owning pair of base address and length.  The address is a
Nat; address 0 plays the role of the null pointer. -/

structure ViewState where
  address : Nat
  length : Nat
  deriving DecidableEq, Repr

namespace ViewState

/-- `size()` of a view. -/
def size (v : ViewState) : Nat := v.length

/-- Modelled from the spec: the `ImmutableMemoryView` move constructor
(implementation file not under src/) transfers address and length to the
new view and zeroes out the source, per "moving a view zeroes out the
source's address/length" (confirmed by `testConstruction` in
src/test/test_memoryView.cpp).  Result: (destination, source afterwards). -/
def moveConstruct (v : ViewState) : ViewState × ViewState :=
  ({ address := v.address, length := v.length }, { address := 0, length := 0 })

/-- `ImmutableMemoryView::swap` exchanges the two views' address and length
fields (body not under src/; modelled after the library's swap idiom, as in
`WriteBuffer::swap` which `std::swap`s each field).
Result: (this afterwards, rhs afterwards). -/
def swap (this rhs : ViewState) : ViewState × ViewState :=
  (rhs, this)

/-- `MemoryView& operator= (MemoryView&& rhs) noexcept { return swap(rhs); }`
(src/include/solace/memoryView.hpp line 84).  Move assignment is a swap of
the destination with the source.  Result: (destination, source afterwards). -/
def moveAssign (dst src : ViewState) : ViewState × ViewState :=
  swap dst src

/-- Modelled from the spec: `assertIndexInRange(index, from, to)` from
assert.hpp (not under src/) checks `from <= index < to` and raises an
out-of-range condition otherwise, per "Indexed access fails out-of-range if
`offset >= size`" and the `IndexOutOfRangeException` uses in the tests. -/
def assertIndexInRange (index lo hi : Nat) : Except Err Unit :=
  if lo ≤ index ∧ index < hi then Except.ok () else Except.error Err.outOfRange

/-- `dataAs<T>(offset)` (src lines 123-129): asserts
`assertIndexInRange(offset, 0, size())` then
`assertIndexInRange(offset + sizeof(T), offset, size() + 1)` and returns the
typed pointer `dataAddress() + offset`.  `sizeT` stands for `sizeof(T)`. -/
def dataAs (v : ViewState) (sizeT offset : Nat) : Except Err Nat :=
  match assertIndexInRange offset 0 v.size with
  | Except.error e => Except.error e
  | Except.ok _ =>
    match assertIndexInRange (offset + sizeT) offset (v.size + 1) with
    | Except.error e => Except.error e
    | Except.ok _ => Except.ok (v.address + offset)

/-- `construct<T>(args...)` (src lines 189-194): asserts
`assertIndexInRange(sizeof(T), 0, size() + 1)`, then placement-news a `T` at
the view's base address.  The number of constructed `T` instances is passed
through explicitly: the assert throws before the placement new, so on the
failure path no object is constructed. -/
def construct (v : ViewState) (sizeT instances : Nat) :
    Except Err Unit × Nat :=
  match assertIndexInRange sizeT 0 (v.size + 1) with
  | Except.error e => (Except.error e, instances)
  | Except.ok _ => (Except.ok (), instances + 1)

/-- Modelled from the spec: `ImmutableMemoryView::slice(from, to)`
(implementation file not under src/) "returns a sub-view; fails with an
out-of-range condition if `from > to`, `to > size`, or `from > size`; a
`slice` where `from == to` yields a valid empty view rather than an error"
(consistent with `testSlice`/`testZeroSizedSlice` in
src/test/test_memoryView.cpp). -/
def slice (v : ViewState) (lo hi : Nat) : Except Err ViewState :=
  if lo > hi ∨ hi > v.size ∨ lo > v.size then Except.error Err.outOfRange
  else Except.ok { address := v.address + lo, length := hi - lo }

end ViewState

/-! ## Memory view contents: fill

For `fill` the contents of the viewed memory matter, so a view is paired
with the underlying byte memory restricted to the view's window. -/

structure MemViewData where
  length : Nat
  mem : Mem

namespace MemViewData

/-- Modelled from the spec: `MemoryView::fill(value, from, to)`
(implementation file not under src/) "validates `from <= to <= size`;
out-of-range parameters fail out-of-range, leaving memory unmodified"; on
success bytes in the window `[from, to)` are set to the value (truncated to
a byte), per `testFill` in src/test/test_memoryView.cpp.
Result: (outcome, memory afterwards). -/
def fill (v : MemViewData) (value lo hi : Nat) :
    Except Err Unit × MemViewData :=
  if lo ≤ hi ∧ hi ≤ v.length then
    (Except.ok (),
     { v with mem := fun j => if lo ≤ j ∧ j < hi then value % 256 else v.mem j })
  else (Except.error Err.outOfRange, v)

end MemViewData

/-! ## Selector poll event sequence

The Selector implementation (solace/io/selector.hpp) is not under src/;
only its test src/test/io/test_selector_poll.cpp is. -/

/-- Modelled from the spec: the forward-only sequence of ready events
returned by `Selector::poll` — an iterator position over a fixed number of
ready events. -/
structure PollIterator where
  index : Nat
  size : Nat
  deriving DecidableEq, Repr

namespace PollIterator

/-- The `end()` position of the sequence: one past the last ready event. -/
def endIndex (it : PollIterator) : Nat := it.size

/-- Whether the iterator has reached `end()`. -/
def atEnd (it : PollIterator) : Bool := decide (it.index = it.size)

/-- Modelled from the spec: advancing the ready-event sequence; "advancing
the sequence past its end fails with an out-of-range condition (it is not
safe to over-advance)" (confirmed by `testEmptyPolling`, which expects
`IndexOutOfRangeException` from `++i`). -/
def increment (it : PollIterator) : Except Err PollIterator :=
  if it.index < it.size then Except.ok { it with index := it.index + 1 }
  else Except.error Err.outOfRange

/-- Modelled from the spec: `poll(timeoutMillis)` yields a sequence over
the ready events found; with no ready handles the sequence is empty
("the sequence is exhausted (`begin() == end()`) on timeout with no ready
handles").  `readyCount` is the number of handles found ready. -/
def poll (readyCount : Nat) : PollIterator :=
  { index := 0, size := readyCount }

end PollIterator

/-! ## Arithmetic helper lemmas for the endian utilities -/

/-- Bitwise or of a multiple of a power of two with a value below that power
is plain addition. -/
theorem lor_eq_add_pow (x y m : Nat) (hm : ∃ k, m = 2 ^ k) (hx : x % m = 0)
    (hy : y < m) : x ||| y = x + y := by
  obtain ⟨k, rfl⟩ := hm
  obtain ⟨a, rfl⟩ := Nat.dvd_of_mod_eq_zero hx
  exact (Nat.mul_add_lt_is_or hy a).symm

theorem shl8 (x : Nat) : x <<< 8 = x * 256 := by
  rw [Nat.shiftLeft_eq]

theorem shl16 (x : Nat) : x <<< 16 = x * 65536 := by
  rw [Nat.shiftLeft_eq]

theorem shl24 (x : Nat) : x <<< 24 = x * 16777216 := by
  rw [Nat.shiftLeft_eq]

theorem shl32 (x : Nat) : x <<< 32 = x * 4294967296 := by
  rw [Nat.shiftLeft_eq]

theorem shl40 (x : Nat) : x <<< 40 = x * 1099511627776 := by
  rw [Nat.shiftLeft_eq]

theorem shl48 (x : Nat) : x <<< 48 = x * 281474976710656 := by
  rw [Nat.shiftLeft_eq]

theorem shl56 (x : Nat) : x <<< 56 = x * 72057594037927936 := by
  rw [Nat.shiftLeft_eq]

theorem shr8 (x : Nat) : x >>> 8 = x / 256 := by
  rw [Nat.shiftRight_eq_div_pow]

theorem shr16 (x : Nat) : x >>> 16 = x / 65536 := by
  rw [Nat.shiftRight_eq_div_pow]

theorem shr24 (x : Nat) : x >>> 24 = x / 16777216 := by
  rw [Nat.shiftRight_eq_div_pow]

theorem shr32 (x : Nat) : x >>> 32 = x / 4294967296 := by
  rw [Nat.shiftRight_eq_div_pow]

theorem shr40 (x : Nat) : x >>> 40 = x / 1099511627776 := by
  rw [Nat.shiftRight_eq_div_pow]

theorem shr48 (x : Nat) : x >>> 48 = x / 281474976710656 := by
  rw [Nat.shiftRight_eq_div_pow]

theorem shr56 (x : Nat) : x >>> 56 = x / 72057594037927936 := by
  rw [Nat.shiftRight_eq_div_pow]

/-- The byte mask `x & 0xFF` is reduction modulo 256. -/
theorem andFF (x : Nat) : x &&& 0xFF = x % 256 := by
  have h := Nat.and_pow_two_sub_one_eq_mod x 8
  norm_num at h
  exact h

/-- Combining four bytes little-endian style with shifted bitwise ors is
base-256 positional addition. -/
theorem bytes4_LE (d0 d1 d2 d3 : Nat) (h0 : d0 < 256) (h1 : d1 < 256)
    (h2 : d2 < 256) (h3 : d3 < 256) :
    d0 ||| d1 <<< 8 ||| d2 <<< 16 ||| d3 <<< 24 =
      d0 + d1 * 256 + d2 * 65536 + d3 * 16777216 := by
  rw [shl8, shl16, shl24]
  have s1 : d0 ||| d1 * 256 = d0 + d1 * 256 := by
    rw [Nat.lor_comm]
    rw [lor_eq_add_pow (d1 * 256) d0 256 ⟨8, by norm_num⟩ (by omega) (by omega)]
    omega
  have s2 : d0 + d1 * 256 ||| d2 * 65536 = d0 + d1 * 256 + d2 * 65536 := by
    rw [Nat.lor_comm]
    rw [lor_eq_add_pow (d2 * 65536) (d0 + d1 * 256) 65536 ⟨16, by norm_num⟩
      (by omega) (by omega)]
    omega
  have s3 : d0 + d1 * 256 + d2 * 65536 ||| d3 * 16777216 =
      d0 + d1 * 256 + d2 * 65536 + d3 * 16777216 := by
    rw [Nat.lor_comm]
    rw [lor_eq_add_pow (d3 * 16777216) (d0 + d1 * 256 + d2 * 65536) 16777216
      ⟨24, by norm_num⟩ (by omega) (by omega)]
    omega
  rw [s1, s2, s3]

/-- Combining four bytes big-endian style with shifted bitwise ors is
base-256 positional addition. -/
theorem bytes4_BE (d0 d1 d2 d3 : Nat) (h0 : d0 < 256) (h1 : d1 < 256)
    (h2 : d2 < 256) (h3 : d3 < 256) :
    d0 <<< 24 ||| d1 <<< 16 ||| d2 <<< 8 ||| d3 =
      d3 + d2 * 256 + d1 * 65536 + d0 * 16777216 := by
  rw [shl24, shl16, shl8]
  have s1 : d0 * 16777216 ||| d1 * 65536 = d0 * 16777216 + d1 * 65536 := by
    rw [lor_eq_add_pow (d0 * 16777216) (d1 * 65536) 16777216 ⟨24, by norm_num⟩
      (by omega) (by omega)]
  have s2 : d0 * 16777216 + d1 * 65536 ||| d2 * 256 =
      d0 * 16777216 + d1 * 65536 + d2 * 256 := by
    rw [lor_eq_add_pow (d0 * 16777216 + d1 * 65536) (d2 * 256) 65536
      ⟨16, by norm_num⟩ (by omega) (by omega)]
  have s3 : d0 * 16777216 + d1 * 65536 + d2 * 256 ||| d3 =
      d0 * 16777216 + d1 * 65536 + d2 * 256 + d3 := by
    rw [lor_eq_add_pow (d0 * 16777216 + d1 * 65536 + d2 * 256) d3 256
      ⟨8, by norm_num⟩ (by omega) (by omega)]
  rw [s1, s2, s3]
  omega

/-- Combining eight bytes little-endian style with shifted bitwise ors is
base-256 positional addition. -/
theorem bytes8_LE (d0 d1 d2 d3 d4 d5 d6 d7 : Nat) (h0 : d0 < 256)
    (h1 : d1 < 256) (h2 : d2 < 256) (h3 : d3 < 256) (h4 : d4 < 256)
    (h5 : d5 < 256) (h6 : d6 < 256) (h7 : d7 < 256) :
    d0 ||| d1 <<< 8 ||| d2 <<< 16 ||| d3 <<< 24 ||| d4 <<< 32 ||| d5 <<< 40 |||
      d6 <<< 48 ||| d7 <<< 56 =
    d0 + d1 * 256 + d2 * 65536 + d3 * 16777216 + d4 * 4294967296 +
      d5 * 1099511627776 + d6 * 281474976710656 + d7 * 72057594037927936 := by
  rw [shl8, shl16, shl24, shl32, shl40, shl48, shl56]
  have s1 : d0 ||| d1 * 256 = d0 + d1 * 256 := by
    rw [Nat.lor_comm]
    rw [lor_eq_add_pow (d1 * 256) d0 256 ⟨8, by norm_num⟩ (by omega) (by omega)]
    omega
  rw [s1]
  have s2 : d0 + d1 * 256 ||| d2 * 65536 = d0 + d1 * 256 + d2 * 65536 := by
    rw [Nat.lor_comm]
    rw [lor_eq_add_pow (d2 * 65536) (d0 + d1 * 256) 65536 ⟨16, by norm_num⟩
      (by omega) (by omega)]
    omega
  rw [s2]
  have s3 : d0 + d1 * 256 + d2 * 65536 ||| d3 * 16777216 =
      d0 + d1 * 256 + d2 * 65536 + d3 * 16777216 := by
    rw [Nat.lor_comm]
    rw [lor_eq_add_pow (d3 * 16777216) (d0 + d1 * 256 + d2 * 65536) 16777216
      ⟨24, by norm_num⟩ (by omega) (by omega)]
    omega
  rw [s3]
  have s4 : d0 + d1 * 256 + d2 * 65536 + d3 * 16777216 ||| d4 * 4294967296 =
      d0 + d1 * 256 + d2 * 65536 + d3 * 16777216 + d4 * 4294967296 := by
    rw [Nat.lor_comm]
    rw [lor_eq_add_pow (d4 * 4294967296)
      (d0 + d1 * 256 + d2 * 65536 + d3 * 16777216) 4294967296
      ⟨32, by norm_num⟩ (by omega) (by omega)]
    omega
  rw [s4]
  have s5 : d0 + d1 * 256 + d2 * 65536 + d3 * 16777216 + d4 * 4294967296 |||
      d5 * 1099511627776 =
      d0 + d1 * 256 + d2 * 65536 + d3 * 16777216 + d4 * 4294967296 +
        d5 * 1099511627776 := by
    rw [Nat.lor_comm]
    rw [lor_eq_add_pow (d5 * 1099511627776)
      (d0 + d1 * 256 + d2 * 65536 + d3 * 16777216 + d4 * 4294967296)
      1099511627776 ⟨40, by norm_num⟩ (by omega) (by omega)]
    omega
  rw [s5]
  have s6 : d0 + d1 * 256 + d2 * 65536 + d3 * 16777216 + d4 * 4294967296 +
      d5 * 1099511627776 ||| d6 * 281474976710656 =
      d0 + d1 * 256 + d2 * 65536 + d3 * 16777216 + d4 * 4294967296 +
        d5 * 1099511627776 + d6 * 281474976710656 := by
    rw [Nat.lor_comm]
    rw [lor_eq_add_pow (d6 * 281474976710656)
      (d0 + d1 * 256 + d2 * 65536 + d3 * 16777216 + d4 * 4294967296 +
        d5 * 1099511627776)
      281474976710656 ⟨48, by norm_num⟩ (by omega) (by omega)]
    omega
  rw [s6]
  have s7 : d0 + d1 * 256 + d2 * 65536 + d3 * 16777216 + d4 * 4294967296 +
      d5 * 1099511627776 + d6 * 281474976710656 ||| d7 * 72057594037927936 =
      d0 + d1 * 256 + d2 * 65536 + d3 * 16777216 + d4 * 4294967296 +
        d5 * 1099511627776 + d6 * 281474976710656 +
        d7 * 72057594037927936 := by
    rw [Nat.lor_comm]
    rw [lor_eq_add_pow (d7 * 72057594037927936)
      (d0 + d1 * 256 + d2 * 65536 + d3 * 16777216 + d4 * 4294967296 +
        d5 * 1099511627776 + d6 * 281474976710656)
      72057594037927936 ⟨56, by norm_num⟩ (by omega) (by omega)]
    omega
  rw [s7]

/-! ## Stored-byte characterisations of the put functions -/

/-- The four bytes stored by `putUint32_LE`: least significant first. -/
theorem putUint32_LE_bytes (n : Nat) (b : Mem) (i : Nat) :
    putUint32_LE n b i i = n % 256 ∧
    putUint32_LE n b i (i + 1) = n / 256 % 256 ∧
    putUint32_LE n b i (i + 2) = n / 65536 % 256 ∧
    putUint32_LE n b i (i + 3) = n / 16777216 % 256 := by
  refine ⟨?_, ?_, ?_, ?_⟩
  · unfold putUint32_LE
    rw [Function.update_noteq (by omega), Function.update_noteq (by omega),
        Function.update_noteq (by omega), Function.update_same, andFF]
  · unfold putUint32_LE
    rw [Function.update_noteq (by omega), Function.update_noteq (by omega),
        Function.update_same, andFF, shr8]
  · unfold putUint32_LE
    rw [Function.update_noteq (by omega), Function.update_same, andFF, shr16]
  · unfold putUint32_LE
    rw [Function.update_same, andFF, shr24]

/-- The four bytes stored by `putUint32_BE`: most significant first. -/
theorem putUint32_BE_bytes (n : Nat) (b : Mem) (i : Nat) :
    putUint32_BE n b i i = n / 16777216 % 256 ∧
    putUint32_BE n b i (i + 1) = n / 65536 % 256 ∧
    putUint32_BE n b i (i + 2) = n / 256 % 256 ∧
    putUint32_BE n b i (i + 3) = n % 256 := by
  refine ⟨?_, ?_, ?_, ?_⟩
  · unfold putUint32_BE
    rw [Function.update_noteq (by omega), Function.update_noteq (by omega),
        Function.update_noteq (by omega), Function.update_same, shr24]
  · unfold putUint32_BE
    rw [Function.update_noteq (by omega), Function.update_noteq (by omega),
        Function.update_same, shr16]
  · unfold putUint32_BE
    rw [Function.update_noteq (by omega), Function.update_same, shr8]
  · unfold putUint32_BE
    rw [Function.update_same]

/-- `putInt32_LE` has the same store pattern as `putUint32_LE` (the bodies
coincide at the bit-pattern level). -/
theorem putInt32_LE_eq_putUint32_LE : @putInt32_LE = @putUint32_LE := rfl

/-- `getInt32_LE` has the same read pattern as `getUint32_LE` (the bodies
coincide at the bit-pattern level). -/
theorem getInt32_LE_eq_getUint32_LE : @getInt32_LE = @getUint32_LE := rfl

/-- The eight bytes stored by `putUint64_LE`: least significant first. -/
theorem putUint64_LE_bytes (n : Nat) (b : Mem) (i : Nat) :
    putUint64_LE n b i i = n % 256 ∧
    putUint64_LE n b i (i + 1) = n / 256 % 256 ∧
    putUint64_LE n b i (i + 2) = n / 65536 % 256 ∧
    putUint64_LE n b i (i + 3) = n / 16777216 % 256 ∧
    putUint64_LE n b i (i + 4) = n / 4294967296 % 256 ∧
    putUint64_LE n b i (i + 5) = n / 1099511627776 % 256 ∧
    putUint64_LE n b i (i + 6) = n / 281474976710656 % 256 ∧
    putUint64_LE n b i (i + 7) = n / 72057594037927936 % 256 := by
  refine ⟨?_, ?_, ?_, ?_, ?_, ?_, ?_, ?_⟩
  · unfold putUint64_LE
    rw [Function.update_noteq (by omega), Function.update_noteq (by omega),
        Function.update_noteq (by omega), Function.update_noteq (by omega),
        Function.update_noteq (by omega), Function.update_noteq (by omega),
        Function.update_noteq (by omega), Function.update_same, andFF]
  · unfold putUint64_LE
    rw [Function.update_noteq (by omega), Function.update_noteq (by omega),
        Function.update_noteq (by omega), Function.update_noteq (by omega),
        Function.update_noteq (by omega), Function.update_noteq (by omega),
        Function.update_same, andFF, shr8]
  · unfold putUint64_LE
    rw [Function.update_noteq (by omega), Function.update_noteq (by omega),
        Function.update_noteq (by omega), Function.update_noteq (by omega),
        Function.update_noteq (by omega), Function.update_same, andFF, shr16]
  · unfold putUint64_LE
    rw [Function.update_noteq (by omega), Function.update_noteq (by omega),
        Function.update_noteq (by omega), Function.update_noteq (by omega),
        Function.update_same, andFF, shr24]
  · unfold putUint64_LE
    rw [Function.update_noteq (by omega), Function.update_noteq (by omega),
        Function.update_noteq (by omega), Function.update_same, andFF, shr32]
  · unfold putUint64_LE
    rw [Function.update_noteq (by omega), Function.update_noteq (by omega),
        Function.update_same, andFF, shr40]
  · unfold putUint64_LE
    rw [Function.update_noteq (by omega), Function.update_same, andFF, shr48]
  · unfold putUint64_LE
    rw [Function.update_same, andFF, shr56]

/-! ## Round-trip lemmas -/

/-- Reading back a stored little-endian 32-bit value recovers it. -/
theorem getUint32_LE_putUint32_LE (n : Nat) (b : Mem) (i : Nat)
    (h : n < 4294967296) : getUint32_LE (putUint32_LE n b i) i = n := by
  obtain ⟨e0, e1, e2, e3⟩ := putUint32_LE_bytes n b i
  unfold getUint32_LE
  rw [e0, e1, e2, e3,
      bytes4_LE _ _ _ _ (by omega) (by omega) (by omega) (by omega)]
  omega

/-- Reading back a stored big-endian 32-bit value recovers it. -/
theorem getUint32_BE_putUint32_BE (n : Nat) (b : Mem) (i : Nat)
    (h : n < 4294967296) : getUint32_BE (putUint32_BE n b i) i = n := by
  obtain ⟨e0, e1, e2, e3⟩ := putUint32_BE_bytes n b i
  unfold getUint32_BE
  rw [e0, e1, e2, e3,
      bytes4_BE _ _ _ _ (by omega) (by omega) (by omega) (by omega)]
  omega

/-- Reading back a stored little-endian 32-bit signed value (as a
two's-complement bit pattern) recovers it. -/
theorem getInt32_LE_putInt32_LE (n : Nat) (b : Mem) (i : Nat)
    (h : n < 4294967296) : getInt32_LE (putInt32_LE n b i) i = n := by
  rw [getInt32_LE_eq_getUint32_LE, putInt32_LE_eq_putUint32_LE]
  exact getUint32_LE_putUint32_LE n b i h

/-- Reading back a stored little-endian 64-bit value recovers it. -/
theorem getUint64_LE_putUint64_LE (n : Nat) (b : Mem) (i : Nat)
    (h : n < 18446744073709551616) :
    getUint64_LE (putUint64_LE n b i) i = n := by
  obtain ⟨e0, e1, e2, e3, e4, e5, e6, e7⟩ := putUint64_LE_bytes n b i
  unfold getUint64_LE
  rw [e0, e1, e2, e3, e4, e5, e6, e7,
      bytes8_LE _ _ _ _ _ _ _ _ (by omega) (by omega) (by omega) (by omega)
        (by omega) (by omega) (by omega) (by omega)]
  omega

/-! ## Claim theorems -/

/-- C1: For every Promise, the first call to resolve(value) or fail(error)
performs the state transition out of Pending, and any second call to either
resolve or fail fails with an invalid-state condition; the associated
Future's settled value (or error) is the one from the first call only (the
cell keeps the first settlement). -/
theorem claim_C1_promise_single_transition (T E : Type) (v v' : T) (e e' : E) :
    (PromiseState.resolve (PromiseState.pending : PromiseState T E) v =
       (Except.ok (), PromiseState.resolved v)) ∧
    (PromiseState.fail (PromiseState.pending : PromiseState T E) e =
       (Except.ok (), PromiseState.failed e)) ∧
    (PromiseState.resolve (PromiseState.resolved v : PromiseState T E) v' =
       (Except.error Err.invalidState, PromiseState.resolved v)) ∧
    (PromiseState.fail (PromiseState.resolved v : PromiseState T E) e' =
       (Except.error Err.invalidState, PromiseState.resolved v)) ∧
    (PromiseState.resolve (PromiseState.failed e : PromiseState T E) v' =
       (Except.error Err.invalidState, PromiseState.failed e)) ∧
    (PromiseState.fail (PromiseState.failed e : PromiseState T E) e' =
       (Except.error Err.invalidState, PromiseState.failed e)) :=
  ⟨rfl, rfl, rfl, rfl, rfl, rfl⟩

/-- C2: For every buffer (WriteBuffer or ByteBuffer) satisfying
`0 <= position <= limit <= capacity`: clear() leaves position == 0 and
limit == capacity; flip() leaves limit equal to the old position and
position == 0; rewind() leaves position == 0 with limit unchanged; each
operation preserves the invariant; clear() is idempotent; and repeated
flip() after no writes (position == 0) leaves limit == 0. -/
theorem claim_C2_buffer_lifecycle (w : WriteBuffer) (r : ByteBuffer)
    (hw : WriteBuffer.Inv w) (hr : ByteBuffer.Inv r) :
    ((WriteBuffer.clear w).position = 0 ∧
     (WriteBuffer.clear w).limit = WriteBuffer.capacity w ∧
     (WriteBuffer.flip w).limit = w.position ∧
     (WriteBuffer.flip w).position = 0 ∧
     (WriteBuffer.rewind w).position = 0 ∧
     (WriteBuffer.rewind w).limit = w.limit ∧
     WriteBuffer.Inv (WriteBuffer.clear w) ∧
     WriteBuffer.Inv (WriteBuffer.flip w) ∧
     WriteBuffer.Inv (WriteBuffer.rewind w) ∧
     WriteBuffer.clear (WriteBuffer.clear w) = WriteBuffer.clear w ∧
     (w.position = 0 → (WriteBuffer.flip w).limit = 0 ∧
        (WriteBuffer.flip (WriteBuffer.flip w)).limit = 0)) ∧
    ((ByteBuffer.clear r).position = 0 ∧
     (ByteBuffer.clear r).limit = ByteBuffer.capacity r ∧
     (ByteBuffer.flip r).limit = r.position ∧
     (ByteBuffer.flip r).position = 0 ∧
     (ByteBuffer.rewind r).position = 0 ∧
     (ByteBuffer.rewind r).limit = r.limit ∧
     ByteBuffer.Inv (ByteBuffer.clear r) ∧
     ByteBuffer.Inv (ByteBuffer.flip r) ∧
     ByteBuffer.Inv (ByteBuffer.rewind r) ∧
     ByteBuffer.clear (ByteBuffer.clear r) = ByteBuffer.clear r ∧
     (r.position = 0 → (ByteBuffer.flip r).limit = 0 ∧
        (ByteBuffer.flip (ByteBuffer.flip r)).limit = 0)) := by
  obtain ⟨hw1, hw2⟩ := hw
  obtain ⟨hr1, hr2⟩ := hr
  refine ⟨⟨rfl, rfl, rfl, rfl, rfl, rfl, ?_, ?_, ?_, rfl, ?_⟩,
          ⟨rfl, rfl, rfl, rfl, rfl, rfl, ?_, ?_, ?_, rfl, ?_⟩⟩
  · exact ⟨Nat.zero_le _, Nat.le_refl _⟩
  · exact ⟨Nat.zero_le _, Nat.le_trans hw1 hw2⟩
  · exact ⟨Nat.zero_le _, hw2⟩
  · intro hp
    simp [WriteBuffer.flip, hp]
  · exact ⟨Nat.zero_le _, Nat.le_refl _⟩
  · exact ⟨Nat.zero_le _, Nat.le_trans hr1 hr2⟩
  · exact ⟨Nat.zero_le _, hr2⟩
  · intro hp
    simp [ByteBuffer.flip, hp]

/-- Witness for C2 at a concrete WriteBuffer and ByteBuffer. -/
theorem claim_C2_buffer_lifecycle_witness :
    WriteBuffer.Inv (WriteBuffer.mk 1 2 4) ∧ ByteBuffer.Inv (ByteBuffer.mk 2 3 5) ∧
    (WriteBuffer.clear (WriteBuffer.mk 1 2 4)).position = 0 :=
  ⟨by decide, by decide,
   (claim_C2_buffer_lifecycle (WriteBuffer.mk 1 2 4) (ByteBuffer.mk 2 3 5)
      (by decide) (by decide)).1.1⟩

/-- C3: putUint32_LE stores the least-significant byte of n at b[i] and
successively more-significant bytes at b[i+1..i+3]; putUint32_BE stores the
most-significant byte at b[i] down to the least-significant at b[i+3]; in
particular n = 0x01020304 yields LE bytes [04,03,02,01] and BE bytes
[01,02,03,04]. -/
theorem claim_C3_endian_store_order (n : Nat) (b : Mem) (i : Nat) :
    (putUint32_LE n b i i = n % 256 ∧
     putUint32_LE n b i (i + 1) = n / 256 % 256 ∧
     putUint32_LE n b i (i + 2) = n / 65536 % 256 ∧
     putUint32_LE n b i (i + 3) = n / 16777216 % 256) ∧
    (putUint32_BE n b i i = n / 16777216 % 256 ∧
     putUint32_BE n b i (i + 1) = n / 65536 % 256 ∧
     putUint32_BE n b i (i + 2) = n / 256 % 256 ∧
     putUint32_BE n b i (i + 3) = n % 256) ∧
    ([putUint32_LE 0x01020304 b i i, putUint32_LE 0x01020304 b i (i + 1),
      putUint32_LE 0x01020304 b i (i + 2), putUint32_LE 0x01020304 b i (i + 3)] =
       [0x04, 0x03, 0x02, 0x01]) ∧
    ([putUint32_BE 0x01020304 b i i, putUint32_BE 0x01020304 b i (i + 1),
      putUint32_BE 0x01020304 b i (i + 2), putUint32_BE 0x01020304 b i (i + 3)] =
       [0x01, 0x02, 0x03, 0x04]) := by
  obtain ⟨cl0, cl1, cl2, cl3⟩ := putUint32_LE_bytes 0x01020304 b i
  obtain ⟨cb0, cb1, cb2, cb3⟩ := putUint32_BE_bytes 0x01020304 b i
  refine ⟨putUint32_LE_bytes n b i, putUint32_BE_bytes n b i, ?_, ?_⟩
  · rw [cl0, cl1, cl2, cl3]
  · rw [cb0, cb1, cb2, cb3]

/-- C4: writing a fixed-width value with a put function and reading it back
at the same index with the matching get function recovers the value:
getUint32_BE after putUint32_BE, getUint32_LE after putUint32_LE,
getInt32_LE after putInt32_LE (bit patterns), getUint64_LE after
putUint64_LE. -/
theorem claim_C4_endian_roundtrip (b : Mem) (i : Nat) (n m : Nat)
    (h32 : n < 4294967296) (h64 : m < 18446744073709551616) :
    getUint32_BE (putUint32_BE n b i) i = n ∧
    getUint32_LE (putUint32_LE n b i) i = n ∧
    getInt32_LE (putInt32_LE n b i) i = n ∧
    getUint64_LE (putUint64_LE m b i) i = m :=
  ⟨getUint32_BE_putUint32_BE n b i h32,
   getUint32_LE_putUint32_LE n b i h32,
   getInt32_LE_putInt32_LE n b i h32,
   getUint64_LE_putUint64_LE m b i h64⟩

/-- Witness for C4 at a concrete value, memory and index. -/
theorem claim_C4_endian_roundtrip_witness :
    (0x01020304 : Nat) < 4294967296 ∧
    (0xA1B2C3D4E5F60718 : Nat) < 18446744073709551616 ∧
    getUint32_BE (putUint32_BE 0x01020304 (fun _ => 0) 2) 2 = 0x01020304 :=
  ⟨by decide, by decide,
   (claim_C4_endian_roundtrip (fun _ => 0) 2 0x01020304 0xA1B2C3D4E5F60718
      (by decide) (by decide)).1⟩

/-- C5: slice(from, to) succeeds with a view of size to - from whenever
from <= to <= size (for from == to a valid empty view results, even on an
empty view), and fails with an out-of-range condition whenever from > to,
to > size, or from > size. -/
theorem claim_C5_slice (v : ViewState) (lo hi : Nat) :
    (lo ≤ hi → hi ≤ v.size →
       ∃ s, ViewState.slice v lo hi = Except.ok s ∧ s.size = hi - lo) ∧
    (lo = hi → lo ≤ v.size →
       ∃ s, ViewState.slice v lo hi = Except.ok s ∧ s.size = 0) ∧
    (lo > hi ∨ hi > v.size ∨ lo > v.size →
       ViewState.slice v lo hi = Except.error Err.outOfRange) := by
  refine ⟨?_, ?_, ?_⟩
  · intro h1 h2
    refine ⟨ViewState.mk (v.address + lo) (hi - lo), ?_, rfl⟩
    unfold ViewState.slice
    rw [if_neg (by omega)]
  · intro h1 h2
    subst h1
    refine ⟨ViewState.mk (v.address + lo) (lo - lo), ?_, ?_⟩
    · unfold ViewState.slice
      rw [if_neg (by omega)]
    · show lo - lo = 0
      omega
  · intro h
    unfold ViewState.slice
    rw [if_pos h]

/-- Witness for C5 at a concrete view and bounds. -/
theorem claim_C5_slice_witness :
    (2 : Nat) ≤ 5 ∧ (5 : Nat) ≤ (ViewState.mk 100 10).size ∧
    ∃ s, ViewState.slice (ViewState.mk 100 10) 2 5 = Except.ok s ∧
      s.size = 5 - 2 :=
  ⟨by decide, by decide,
   (claim_C5_slice (ViewState.mk 100 10) 2 5).1 (by decide) (by decide)⟩

/-- C6: fill(value, from, to) with from > to or either bound exceeding the
size fails with an out-of-range condition and leaves every byte of the
underlying memory unmodified. -/
theorem claim_C6_fill_out_of_range (v : MemViewData) (value lo hi : Nat)
    (h : lo > hi ∨ lo > v.length ∨ hi > v.length) :
    (MemViewData.fill v value lo hi).1 = Except.error Err.outOfRange ∧
    (MemViewData.fill v value lo hi).2 = v ∧
    ∀ j, ((MemViewData.fill v value lo hi).2).mem j = v.mem j := by
  unfold MemViewData.fill
  rw [if_neg (by omega)]
  exact ⟨rfl, rfl, fun _ => rfl⟩

/-- Witness for C6 at a concrete view with reversed bounds. -/
theorem claim_C6_fill_out_of_range_witness :
    ((4 : Nat) > 2 ∨ (4 : Nat) > 5 ∨ (2 : Nat) > 5) ∧
    (MemViewData.fill (MemViewData.mk 5 (fun _ => 7)) 3 4 2).1 =
      Except.error Err.outOfRange :=
  ⟨Or.inl (by decide),
   (claim_C6_fill_out_of_range (MemViewData.mk 5 (fun _ => 7)) 3 4 2
      (Or.inl (by decide))).1⟩

/-- C7 counterexample: move-assignment is implemented as a swap
(`operator= (MemoryView&& rhs) { return swap(rhs); }`), so after
move-assigning a view with address 100 and size 7 into a destination
holding address 200 and size 3, the moved-from source holds the
destination's former address 200 and size 3 — not a null/zero view as the
claim states. -/
theorem claim_C7_counterexample :
    ¬ (((ViewState.moveAssign (ViewState.mk 200 3) (ViewState.mk 100 7)).2).address = 0 ∧
       ((ViewState.moveAssign (ViewState.mk 200 3) (ViewState.mk 100 7)).2).size = 0) := by
  decide

/-- C7 (amended): move-construction transfers the source's address and
length to the destination and zeroes out the source; move-assignment swaps
destination and source, so the destination receives the source's former
address and length while the source receives the destination's former
contents — the source ends up null/zero exactly when the destination was a
null/empty view. -/
theorem claim_C7_move_semantics (v d : ViewState) :
    ((ViewState.moveConstruct v).1 = v ∧
     (ViewState.moveConstruct v).2.address = 0 ∧
     (ViewState.moveConstruct v).2.size = 0) ∧
    ((ViewState.moveAssign d v).1 = v ∧ (ViewState.moveAssign d v).2 = d) ∧
    (d = ViewState.mk 0 0 →
       (ViewState.moveAssign d v).2.address = 0 ∧
       (ViewState.moveAssign d v).2.size = 0) := by
  refine ⟨⟨rfl, rfl, rfl⟩, ⟨rfl, rfl⟩, ?_⟩
  rintro rfl
  exact ⟨rfl, rfl⟩

/-- Witness for C7 (amended) at a concrete source and empty destination. -/
theorem claim_C7_move_semantics_witness :
    (ViewState.moveAssign (ViewState.mk 0 0) (ViewState.mk 100 7)).2.address = 0 ∧
    (ViewState.moveAssign (ViewState.mk 0 0) (ViewState.mk 100 7)).2.size = 0 :=
  (claim_C7_move_semantics (ViewState.mk 100 7) (ViewState.mk 0 0)).2.2 rfl

/-- C8: dataAs fails with an out-of-range condition whenever
offset + sizeof(T) > size (and succeeds when sizeof(T) >= 1 and
offset + sizeof(T) <= size, so the in-range check accounts for sizeof(T));
construct fails with an out-of-range condition whenever sizeof(T) > size,
and a failed construct constructs no object (the instance count is
unchanged on the failure path). -/
theorem claim_C8_typed_access_bounds (v : ViewState) (sizeT offset insts : Nat) :
    (offset + sizeT > v.size →
       ViewState.dataAs v sizeT offset = Except.error Err.outOfRange) ∧
    (1 ≤ sizeT → offset + sizeT ≤ v.size →
       ViewState.dataAs v sizeT offset = Except.ok (v.address + offset)) ∧
    (sizeT > v.size →
       ViewState.construct v sizeT insts = (Except.error Err.outOfRange, insts)) ∧
    (sizeT ≤ v.size →
       ViewState.construct v sizeT insts = (Except.ok (), insts + 1)) := by
  refine ⟨?_, ?_, ?_, ?_⟩
  · intro h
    unfold ViewState.dataAs ViewState.assertIndexInRange
    rcases Nat.lt_or_ge offset v.size with h1 | h1
    · rw [if_pos ⟨Nat.zero_le _, h1⟩, if_neg (by omega)]
    · rw [if_neg (by omega)]
  · intro h1 h2
    unfold ViewState.dataAs ViewState.assertIndexInRange
    rw [if_pos ⟨Nat.zero_le _, by omega⟩, if_pos (by omega)]
  · intro h
    unfold ViewState.construct ViewState.assertIndexInRange
    rw [if_neg (by omega)]
  · intro h
    unfold ViewState.construct ViewState.assertIndexInRange
    rw [if_pos ⟨Nat.zero_le _, by omega⟩]

/-- Witness for C8 at a concrete view: a 4-byte view refuses a 6-byte typed
access at offset 2 and a 6-byte construct, and performs no construction. -/
theorem claim_C8_typed_access_bounds_witness :
    (2 + 6 > (ViewState.mk 0 4).size) ∧
    ViewState.dataAs (ViewState.mk 0 4) 6 2 = Except.error Err.outOfRange ∧
    ViewState.construct (ViewState.mk 0 4) 6 0 =
      (Except.error Err.outOfRange, 0) :=
  ⟨by decide,
   (claim_C8_typed_access_bounds (ViewState.mk 0 4) 6 2 0).1 (by decide),
   (claim_C8_typed_access_bounds (ViewState.mk 0 4) 6 2 0).2.2.1 (by decide)⟩

/-- C9: a poll call that finds no ready handles returns a sequence whose
begin() equals its end(), and advancing a sequence that is at its end fails
with an out-of-range condition rather than being undefined. -/
theorem claim_C9_poll_exhausted_sequence (it : PollIterator)
    (h : it.index ≥ it.endIndex) :
    (PollIterator.poll 0).index = (PollIterator.poll 0).endIndex ∧
    PollIterator.increment (PollIterator.poll 0) = Except.error Err.outOfRange ∧
    PollIterator.increment it = Except.error Err.outOfRange := by
  refine ⟨rfl, rfl, ?_⟩
  unfold PollIterator.increment
  rw [if_neg (by exact Nat.not_lt.mpr h)]

/-- Witness for C9 at the empty poll sequence. -/
theorem claim_C9_poll_exhausted_sequence_witness :
    (PollIterator.mk 0 0).index ≥ (PollIterator.mk 0 0).endIndex ∧
    PollIterator.increment (PollIterator.mk 0 0) = Except.error Err.outOfRange :=
  ⟨by decide,
   (claim_C9_poll_exhausted_sequence (PollIterator.mk 0 0) (by decide)).2.2⟩

/-- C10: a None optional maps to None under map and flatMap without the
function being invoked (the result does not depend on the function), and an
optional holding x maps to an optional holding f(x) under map, respectively
to f(x) itself under flatMap. -/
theorem claim_C10_optional_map_flatmap (T U : Type) (x : T) (f g : T → U)
    (fm gm : T → Optional U) :
    Optional.map (Optional.noneV : Optional T) f = Optional.noneV ∧
    Optional.flatMap (Optional.noneV : Optional T) fm = Optional.noneV ∧
    Optional.map (Optional.noneV : Optional T) f = Optional.map Optional.noneV g ∧
    Optional.flatMap (Optional.noneV : Optional T) fm =
      Optional.flatMap Optional.noneV gm ∧
    Optional.map (Optional.someV x) f = Optional.someV (f x) ∧
    Optional.flatMap (Optional.someV x) fm = fm x :=
  ⟨rfl, rfl, rfl, rfl, rfl, rfl⟩

end Solace
